import Mathlib

/-!
Shallow embedding of `src/hypercube-visualization.tsx`.

The component tree is HypercubeVisualization → Scene → SimpleHypercube →
TextLabel.  Rendering is modelled as pure functions from the component
props and interaction state to view structures; numeric props (sizes,
positions, opacities, font sizes) are rationals, with decimal literals of
the source written as exact fractions (0.2 = 1/5, 0.3 = 3/10, 0.7 = 7/10,
0.15 = 3/20, 0.01 = 1/100, 0.1 = 1/10).  Angles taken from the source as
multiples of Math.PI are recorded in units of π (so Math.PI / 4 is 1/4,
i.e. 45 degrees).  The audio side effect (a React useEffect) is modelled
as an explicit step function on an audio trace, and the fallible external
capabilities (the AudioContext constructor, the drei Text component) are
modelled as parameters that may fail, so the try/catch paths of the
source become total functions on those parameters.
-/

namespace Hypercube

/-- Growth stages for each layer (source lines 10-16). -/
def GROWTH_STAGES : List String :=
  ["Boundary Set",
   "Authenticity Embraced",
   "Self-Advocacy",
   "Resilience Built",
   "Transformation Complete"]

/-- Click handler of the Scene group (line 141): setClicked(!clicked). -/
def clickToggle (clicked : Bool) : Bool := !clicked

/-- Scene z-rotation in units of π (line 142): clicked ? Math.PI / 4 : 0. -/
def sceneRotationZ (clicked : Bool) : ℚ := if clicked then 1/4 else 0

/-- Scene primary color (line 98). -/
def primaryColor (highContrast : Bool) : String :=
  if highContrast then "#FFFFFF" else "#FF4D4D"

/-- Scene secondary color (line 99). -/
def secondaryColor (highContrast : Bool) : String :=
  if highContrast then "#FFFFFF" else "#4D4DFF"

/-- Scene accent color (line 100). -/
def accentColor (highContrast : Bool) : String :=
  if highContrast then "#FFFFFF" else "#FFD700"

/-- Canvas background color attached by HypercubeVisualization (line 78). -/
def canvasBackground (highContrast : Bool) : String :=
  if highContrast then "#000000" else "#0F0F1A"

/-- getLayerPosition (lines 180-183): [0,0,0] unless hovered, else
[0, (index - 2) * 2, 0]. -/
def getLayerPosition (hovered : Bool) (index : ℕ) : ℚ × ℚ × ℚ :=
  if !hovered then (0, 0, 0) else (0, ((index : ℚ) - 2) * 2, 0)

/-- Edge length of the boxGeometry of layer `index` (line 195):
2 - index * 0.2, the same on all three axes. -/
def layerSize (index : ℕ) : ℚ := 2 - (index : ℚ) * (1/5)

/-- Material color of layer `index` (lines 197 and 199): the ternary chain
index % 3 === 0 ? primaryColor : index % 3 === 1 ? secondaryColor :
accentColor, over the three palette colors received as props. -/
def layerColor (primary secondary accent : String) (index : ℕ) : String :=
  if index % 3 == 0 then primary
  else if index % 3 == 1 then secondary
  else accent

/-- Text color inside SimpleHypercube (line 186): the ternary has the same
white value in both branches. -/
def textColor (highContrast : Bool) : String :=
  if highContrast then "#FFFFFF" else "#FFFFFF"

/-- Text outline color inside SimpleHypercube (line 187): black in both
branches of the ternary. -/
def textOutlineColor (highContrast : Bool) : String :=
  if highContrast then "#000000" else "#000000"

/-- The props handed to a TextLabel element (lines 208-214 and 236-242). -/
structure LabelCall where
  text : String
  position : ℚ × ℚ × ℚ
  color : String
  outlineColor : String
  fontSize : ℚ
deriving DecidableEq, Repr

/-- One cube of the inner fractal group (lines 222-232): rotation recorded
in units of π, so (level * Math.PI) / 4 is level * (1/4). -/
structure FractalCube where
  rotationX : ℚ
  rotationY : ℚ
  size : ℚ × ℚ × ℚ
  color : String
  emissive : String
deriving DecidableEq, Repr

/-- The fractal sub-group rendered while clicked (lines 219-244). -/
structure FractalView where
  scale : ℚ × ℚ × ℚ
  cubes : List FractalCube
  label : LabelCall
deriving DecidableEq, Repr

/-- One outer layer as rendered by SimpleHypercube (lines 192-216). -/
structure LayerView where
  position : ℚ × ℚ × ℚ
  size : ℚ × ℚ × ℚ
  color : String
  emissive : String
  emissiveIntensity : ℚ
  opacity : ℚ
  wireframe : Bool
  label : Option LabelCall
deriving DecidableEq, Repr

/-- The render output of SimpleHypercube. -/
structure HypercubeView where
  layers : List LayerView
  fractal : Option FractalView
deriving DecidableEq, Repr

/-- Render of SimpleHypercube (lines 157-247) as a function of its props.
Layers come from mapping over GROWTH_STAGES with index; the label of a
layer exists only while hovered and sits at half the layer size plus 0.5
above the center, with the component-default fontSize 0.2 (line 250); the
fractal group exists only while clicked, scaled by 0.5, with cubes at
levels 0, 1, 2 and a fixed caption of fontSize 0.15. -/
def SimpleHypercube (hovered clicked : Bool)
    (primary secondary accent : String) (highContrast : Bool) : HypercubeView :=
  { layers :=
      GROWTH_STAGES.enum.map (fun si =>
        { position := getLayerPosition hovered si.1
          size := (layerSize si.1, layerSize si.1, layerSize si.1)
          color := layerColor primary secondary accent si.1
          emissive := layerColor primary secondary accent si.1
          emissiveIntensity := 3/10
          opacity := 7/10
          wireframe := true
          label :=
            if hovered then
              some { text := si.2
                     position := (0, layerSize si.1 / 2 + 1/2, 0)
                     color := textColor highContrast
                     outlineColor := textOutlineColor highContrast
                     fontSize := 1/5 }
            else none })
    fractal :=
      if clicked then
        some { scale := (1/2, 1/2, 1/2)
               cubes :=
                 [0, 1, 2].map (fun level =>
                   { rotationX := (level : ℚ) * (1/4)
                     rotationY := (level : ℚ) * (1/4)
                     size := (1 - (level : ℚ) * (3/10),
                              1 - (level : ℚ) * (3/10),
                              1 - (level : ℚ) * (3/10))
                     color := accent
                     emissive := accent })
               label :=
                 { text := "Fractal Self-Reclamation"
                   position := (0, 3/2, 0)
                   color := textColor highContrast
                   outlineColor := textOutlineColor highContrast
                   fontSize := 3/20 } }
      else none }

/-- The render output of Scene (lines 137-154): the group rotation and the
SimpleHypercube child with the derived palette. -/
structure SceneView where
  rotationZ : ℚ
  hypercube : HypercubeView
deriving DecidableEq, Repr

/-- Render of Scene (lines 93-155) as a function of its props and of its
hovered/clicked state.  soundEnabled only feeds the audio effect, which is
modelled separately below. -/
def Scene (highContrast : Bool) (hovered clicked : Bool) : SceneView :=
  { rotationZ := sceneRotationZ clicked
    hypercube :=
      SimpleHypercube hovered clicked
        (primaryColor highContrast) (secondaryColor highContrast)
        (accentColor highContrast) highContrast }

/-- The render output of HypercubeVisualization (lines 56-90): the canvas
background color and the Scene child. -/
structure AppView where
  background : String
  scene : SceneView
deriving DecidableEq, Repr

/-- Render of HypercubeVisualization (lines 30-91) as a function of its
toggle state and of the Scene interaction state. -/
def HypercubeVisualization (highContrast soundEnabled : Bool)
    (hovered clicked : Bool) : AppView :=
  { background := canvasBackground highContrast
    scene := Scene highContrast hovered clicked }

/-! TextLabel (lines 249-278).  The drei Text component is an external
capability that may fail; it is modelled as a function from the requested
text element to an Except, and TextLabel wraps it in the try/catch of the
source: on success the text node is returned, on any error a small sphere
marker at the same position and color is returned instead. -/

/-- The Text element TextLabel asks the external capability to render
(lines 254-266). -/
structure TextRequest where
  position : ℚ × ℚ × ℚ
  fontSize : ℚ
  color : String
  anchorX : String
  anchorY : String
  outlineWidth : ℚ
  outlineColor : String
  renderOrder : ℕ
  depthTest : Bool
  content : String
deriving DecidableEq, Repr

/-- The fallback mesh (lines 272-275): sphereGeometry args [0.1, 8, 8] and
a basic material of the label color. -/
structure SphereMarker where
  position : ℚ × ℚ × ℚ
  radius : ℚ
  widthSegments : ℕ
  heightSegments : ℕ
  color : String
deriving DecidableEq, Repr

/-- What TextLabel returns: the text node or the fallback marker. -/
inductive LabelNode where
  | text (t : TextRequest)
  | sphere (s : SphereMarker)
deriving DecidableEq, Repr

/-- The Text element built from a TextLabel call (lines 254-266): anchors
center/middle, outlineWidth 0.01, renderOrder 1, depthTest false. -/
def textRequestOf (c : LabelCall) : TextRequest :=
  { position := c.position
    fontSize := c.fontSize
    color := c.color
    anchorX := "center"
    anchorY := "middle"
    outlineWidth := 1/100
    outlineColor := c.outlineColor
    renderOrder := 1
    depthTest := false
    content := c.text }

/-- TextLabel (lines 250-278), parametrized by the external Text
capability `backend`: try returning the Text element; on any error return
the sphere marker at the same position and color. -/
def TextLabel (backend : TextRequest → Except String TextRequest)
    (c : LabelCall) : LabelNode :=
  match backend (textRequestOf c) with
  | Except.ok t => LabelNode.text t
  | Except.error _ =>
      LabelNode.sphere
        { position := c.position
          radius := 1/10
          widthSegments := 8
          heightSegments := 8
          color := c.color }

/-! The audio effect of Scene (lines 103-135).  The effect runs whenever
soundEnabled or hovered changes: React first runs the previous effect's
cleanup (stop the oscillator, close the context, inside a try/catch),
then the new effect body (early return when sound is disabled; otherwise
a try block that constructs a context, an oscillator of frequency
40 or 10 and a gain node of gain 0.2 or 0, and starts the oscillator,
with any error caught and logged).  The environment in which the audio
API may be missing or may throw is modelled explicitly. -/

/-- A started oscillator/gain pair. -/
structure Tone where
  freq : ℚ
  gain : ℚ
  waveType : String
deriving DecidableEq, Repr

/-- The host audio environment: whether an AudioContext constructor
exists, whether setup throws, whether cleanup (stop/close) throws. -/
structure AudioEnv where
  hasAudioContext : Bool
  setupThrows : Bool
  cleanupThrows : Bool
deriving DecidableEq, Repr

/-- The try block of the effect body (lines 108-122), before the catch:
no AudioContext means a plain early return (line 110); a throwing
environment raises; otherwise a sine tone of frequency hovered ? 40 : 10
and gain hovered ? 0.2 : 0 is constructed and started. -/
def audioSetupRaw (env : AudioEnv) (hovered : Bool) :
    Except String (Option Tone) :=
  if !env.hasAudioContext then Except.ok none
  else if env.setupThrows then Except.error "Audio error"
  else Except.ok (some { freq := if hovered then 40 else 10
                         gain := if hovered then 1/5 else 0
                         waveType := "sine" })

/-- The whole effect body (lines 103-125) including the early return on
disabled sound and the catch (lines 123-125): an error is caught and
logged, leaving no tone playing. -/
def audioEffect (env : AudioEnv) (soundEnabled hovered : Bool) : Option Tone :=
  if !soundEnabled then none
  else
    match audioSetupRaw env hovered with
    | Except.ok t => t
    | Except.error _ => none

/-- Whether a fallible computation ended without an uncaught error. -/
def isOk {α : Type} : Except String α → Bool
  | Except.ok _ => true
  | Except.error _ => false

/-- The effect body as the caught computation it is: the result after the
try/catch, which never propagates an error. -/
def audioEffectCaught (env : AudioEnv) (soundEnabled hovered : Bool) :
    Except String (Option Tone) :=
  if !soundEnabled then Except.ok none
  else
    match audioSetupRaw env hovered with
    | Except.ok t => Except.ok t
    | Except.error _ => Except.ok none

/-- The cleanup closure before its catch (lines 129-130): stopping and
closing an existing pair may throw in a faulty environment; with nothing
active it does nothing. -/
def audioCleanupRaw (env : AudioEnv) (active : Option Tone) :
    Except String Unit :=
  match active with
  | none => Except.ok ()
  | some _ =>
      if env.cleanupThrows then Except.error "Audio cleanup error"
      else Except.ok ()

/-- The cleanup closure with its catch (lines 127-134): any error is
caught and logged, never rethrown. -/
def audioCleanupCaught (env : AudioEnv) (active : Option Tone) :
    Except String Unit :=
  match audioCleanupRaw env active with
  | Except.ok u => Except.ok u
  | Except.error _ => Except.ok ()

/-- The audio state across effect runs: the currently playing tone and
the tones already stopped and closed by cleanups. -/
structure AudioTrace where
  active : Option Tone
  stopped : List Tone
deriving DecidableEq, Repr

/-- One dependency change of [soundEnabled, hovered] (line 135): the
previous effect's cleanup runs (moving the active tone, if any, to the
stopped list unless the cleanup itself throws), then the new effect body
runs and installs its tone. -/
def audioStep (env : AudioEnv) (st : AudioTrace)
    (soundEnabled hovered : Bool) : AudioTrace :=
  match audioCleanupRaw env st.active with
  | Except.ok _ =>
      { active := audioEffect env soundEnabled hovered
        stopped := st.stopped ++ st.active.toList }
  | Except.error _ =>
      { active := audioEffect env soundEnabled hovered
        stopped := st.stopped }

/-- All TextLabel calls appearing in a SimpleHypercube render: the layer
labels that exist while hovered, followed by the fractal caption when the
fractal group exists. -/
def hypercubeLabelCalls (v : HypercubeView) : List LabelCall :=
  (v.layers.filterMap (fun l => l.label)) ++
    (v.fractal.elim [] (fun f => [f.label]))

/-- C1: each click flips `clicked` (two clicks restore it), and exactly
when `clicked` is true the Scene group carries a 45-degree rotation
(Math.PI / 4, i.e. 180 * (1/4) = 45 degrees) and the fractal sub-group of
3 nested cubes is rendered; when `clicked` is false the rotation is zero
and no fractal sub-group exists. -/
theorem click_flip_rotation_fractal (highContrast hovered clicked : Bool) :
    clickToggle clicked = !clicked ∧
    clickToggle (clickToggle clicked) = clicked ∧
    180 * (Scene highContrast hovered clicked).rotationZ =
      (if clicked then 45 else 0) ∧
    ((Scene highContrast hovered clicked).hypercube.fractal.map
        (fun f => f.cubes.length)) = (if clicked then some 3 else none) := by
  refine ⟨by cases clicked <;> rfl, by cases clicked <;> rfl, ?_, ?_⟩
  · cases clicked <;> norm_num [Scene, sceneRotationZ]
  · cases clicked <;> simp [Scene, SimpleHypercube]

/-- C2: for every layer index i in [0,4], the layer position is [0,0,0]
while not hovered and [0, (i-2)*2, 0] while hovered (index 0 at -4,
index 2 at 0, index 4 at +4), with x and z zero in both states. -/
theorem layer_positions (highContrast clicked : Bool)
    (primary secondary accent : String) :
    (∀ i : Fin 5, getLayerPosition false (i : ℕ) = (0, 0, 0) ∧
        getLayerPosition true (i : ℕ) = (0, (((i : ℕ) : ℚ) - 2) * 2, 0)) ∧
    ((SimpleHypercube false clicked primary secondary accent
        highContrast).layers.map (fun l => l.position)) =
      [(0, 0, 0), (0, 0, 0), (0, 0, 0), (0, 0, 0), (0, 0, 0)] ∧
    ((SimpleHypercube true clicked primary secondary accent
        highContrast).layers.map (fun l => l.position)) =
      [(0, -4, 0), (0, -2, 0), (0, 0, 0), (0, 2, 0), (0, 4, 0)] := by
  refine ⟨fun i => ⟨rfl, rfl⟩, ?_, ?_⟩
  · simp [SimpleHypercube, GROWTH_STAGES, List.enum, List.enumFrom,
      getLayerPosition]
  · simp [SimpleHypercube, GROWTH_STAGES, List.enum, List.enumFrom,
      getLayerPosition, Prod.ext_iff]
    norm_num

/-- C3: layer i's cube edge length is 2 - i*0.2 on all three axes, and
the size strictly decreases from each index to the next. -/
theorem layer_sizes_decreasing (highContrast hovered clicked : Bool)
    (primary secondary accent : String) :
    (∀ i : Fin 5, layerSize (i : ℕ) = 2 - ((i : ℕ) : ℚ) * (1/5)) ∧
    (∀ i : Fin 4, layerSize ((i : ℕ) + 1) < layerSize (i : ℕ)) ∧
    ((SimpleHypercube hovered clicked primary secondary accent
        highContrast).layers.map (fun l => l.size)) =
      [(2, 2, 2), (9/5, 9/5, 9/5), (8/5, 8/5, 8/5),
       (7/5, 7/5, 7/5), (6/5, 6/5, 6/5)] := by
  refine ⟨fun i => rfl, fun i => ?_, ?_⟩
  · fin_cases i <;> norm_num [layerSize]
  · simp [SimpleHypercube, GROWTH_STAGES, List.enum, List.enumFrom, layerSize,
      Prod.ext_iff]
    norm_num

/-- C4: layer i's color and emissive color come from palette slot i mod 3
(slot 0 the primary, slot 1 the secondary, slot 2 the accent color), so
across indices 0..4 the colors are primary, secondary, accent, primary,
secondary: indices 0 and 3 share a slot and indices 1 and 4 share one. -/
theorem layer_palette_cycle (highContrast hovered clicked : Bool)
    (primary secondary accent : String) :
    (∀ i : Fin 5, layerColor primary secondary accent (i : ℕ) =
        [primary, secondary, accent].get ⟨(i : ℕ) % 3, by simp; omega⟩) ∧
    ((SimpleHypercube hovered clicked primary secondary accent
        highContrast).layers.map (fun l => l.color)) =
      [primary, secondary, accent, primary, secondary] ∧
    ((SimpleHypercube hovered clicked primary secondary accent
        highContrast).layers.map (fun l => l.emissive)) =
      [primary, secondary, accent, primary, secondary] :=
  ⟨fun i => by fin_cases i <;> rfl, rfl, rfl⟩

/-- C5: in a working audio environment every dependency change first
tears down the existing oscillator/gain pair (it joins the stopped list),
then, if sound is enabled, installs a started tone of frequency 40 and
gain 0.2 while hovered or frequency 10 and gain 0 while not hovered;
with sound disabled nothing is constructed. -/
theorem audio_step_behavior (env : AudioEnv) (st : AudioTrace)
    (soundEnabled hovered : Bool)
    (hok : env.hasAudioContext = true) (hsetup : env.setupThrows = false)
    (hclean : env.cleanupThrows = false) :
    (audioStep env st soundEnabled hovered).stopped =
      st.stopped ++ st.active.toList ∧
    (audioStep env st soundEnabled hovered).active =
      (if soundEnabled then
         some { freq := if hovered then 40 else 10
                gain := if hovered then 1/5 else 0
                waveType := "sine" }
       else none) := by
  cases hact : st.active <;> cases soundEnabled <;> cases hovered <;>
    simp [audioStep, audioCleanupRaw, audioEffect, audioSetupRaw,
      hok, hsetup, hclean, hact]

/-- Witness for C5: one concrete step from an active 10/0 tone with sound
enabled and hover turning on yields the 40/0.2 tone and stops the old one. -/
theorem audio_step_behavior_witness :
    (audioStep ⟨true, false, false⟩
        ⟨some ⟨10, 0, "sine"⟩, []⟩ true true).stopped =
      [] ++ (some (⟨10, 0, "sine"⟩ : Tone)).toList ∧
    (audioStep ⟨true, false, false⟩
        ⟨some ⟨10, 0, "sine"⟩, []⟩ true true).active =
      (if true then
         some { freq := if true then 40 else 10
                gain := if true then 1/5 else 0
                waveType := "sine" }
       else none) :=
  audio_step_behavior ⟨true, false, false⟩
    ⟨some ⟨10, 0, "sine"⟩, []⟩ true true rfl rfl rfl

/-- C6: the audio effect body and its cleanup are the caught computations
of the source try/catch blocks: they never propagate an error, the caught
body always computes the same tone the total effect computes, and when
the raw setup throws the effect leaves no tone playing, changing nothing
else. -/
theorem audio_errors_caught (env : AudioEnv) (soundEnabled hovered : Bool)
    (active : Option Tone) :
    isOk (audioEffectCaught env soundEnabled hovered) = true ∧
    isOk (audioCleanupCaught env active) = true ∧
    audioEffectCaught env soundEnabled hovered =
      Except.ok (audioEffect env soundEnabled hovered) ∧
    (isOk (audioSetupRaw env hovered) = false →
      audioEffect env soundEnabled hovered = none) := by
  refine ⟨?_, ?_, ?_, ?_⟩
  · unfold audioEffectCaught
    cases soundEnabled <;> cases h : audioSetupRaw env hovered <;>
      simp [h, isOk]
  · unfold audioCleanupCaught
    cases h : audioCleanupRaw env active <;> simp [h, isOk]
  · cases soundEnabled
    · rfl
    · unfold audioEffectCaught audioEffect
      cases h : audioSetupRaw env hovered <;> simp [h]
  · intro hfail
    unfold audioEffect
    cases soundEnabled
    · rfl
    · cases h : audioSetupRaw env hovered
      · simp [h]
      · rw [h] at hfail
        simp [isOk] at hfail

/-- Witness for C6: in an environment whose setup throws, with sound
enabled and hovered, nothing escapes and no tone plays. -/
theorem audio_errors_caught_witness :
    isOk (audioEffectCaught ⟨true, true, true⟩ true true) = true ∧
    isOk (audioCleanupCaught ⟨true, true, true⟩
        (some ⟨40, 1/5, "sine"⟩)) = true ∧
    audioEffectCaught ⟨true, true, true⟩ true true =
      Except.ok (audioEffect ⟨true, true, true⟩ true true) ∧
    audioEffect ⟨true, true, true⟩ true true = none :=
  have h := audio_errors_caught ⟨true, true, true⟩ true true
    (some ⟨40, 1/5, "sine"⟩)
  ⟨h.1, h.2.1, h.2.2.1, h.2.2.2 rfl⟩

/-- C7: whenever the external text capability fails on the requested
element, TextLabel returns the small sphere marker at the same position
with the same color instead of propagating the failure. -/
theorem textlabel_fallback (backend : TextRequest → Except String TextRequest)
    (c : LabelCall) (e : String)
    (hfail : backend (textRequestOf c) = Except.error e) :
    TextLabel backend c =
      LabelNode.sphere { position := c.position
                         radius := 1/10
                         widthSegments := 8
                         heightSegments := 8
                         color := c.color } := by
  simp [TextLabel, hfail]

/-- Witness for C7: a backend that always fails makes TextLabel return
the sphere marker at the call's position and color. -/
theorem textlabel_fallback_witness :
    TextLabel (fun _ => Except.error "boom")
      ⟨"Boundary Set", (0, 0, 0), "#FFFFFF", "#000000", 1/5⟩ =
      LabelNode.sphere ⟨(0, 0, 0), 1/10, 8, 8, "#FFFFFF"⟩ :=
  textlabel_fallback (fun _ => Except.error "boom")
    ⟨"Boundary Set", (0, 0, 0), "#FFFFFF", "#000000", 1/5⟩ "boom" rfl

/-- C8: with high contrast all three derived palette colors are the white
value, and without it they are the fixed red, blue and gold constants. -/
theorem palette_high_contrast :
    primaryColor true = "#FFFFFF" ∧ secondaryColor true = "#FFFFFF" ∧
    accentColor true = "#FFFFFF" ∧
    primaryColor false = "#FF4D4D" ∧ secondaryColor false = "#4D4DFF" ∧
    accentColor false = "#FFD700" :=
  ⟨rfl, rfl, rfl, rfl, rfl, rfl⟩

/-- Counterexample to C9 as stated: with high contrast on, the canvas
background is "#000000" (black), not the white palette value. -/
theorem background_not_white :
    (HypercubeVisualization true false false false).background = "#000000" ∧
    ¬ (HypercubeVisualization true false false false).background = "#FFFFFF" :=
  ⟨rfl, fun h => by
    simp [HypercubeVisualization, canvasBackground] at h⟩

/-- C9 (amended): setting highContrast to true switches the canvas
background to black ("#000000") and all layer colors, the fractal cubes
included, to the single white palette. -/
theorem background_black_layers_white (soundEnabled hovered clicked : Bool) :
    (HypercubeVisualization true soundEnabled hovered clicked).background =
      "#000000" ∧
    ((HypercubeVisualization true soundEnabled hovered
        clicked).scene.hypercube.layers.all
      (fun l => l.color == "#FFFFFF" && l.emissive == "#FFFFFF")) = true ∧
    ((HypercubeVisualization true soundEnabled hovered
        clicked).scene.hypercube.fractal.elim true
      (fun f => f.cubes.all (fun cb => cb.color == "#FFFFFF"))) = true := by
  cases soundEnabled <;> cases hovered <;> cases clicked <;>
    exact ⟨rfl, rfl, rfl⟩

/-- C10: the caption color handed to every TextLabel is "#FFFFFF" and the
outline color "#000000" for either value of highContrast, and toggling
highContrast changes no label call at all: the two derivation ternaries
yield the same value in both branches. -/
theorem label_colors_constant (highContrast soundEnabled hovered clicked : Bool) :
    textColor highContrast = "#FFFFFF" ∧
    textOutlineColor highContrast = "#000000" ∧
    ((hypercubeLabelCalls
        (HypercubeVisualization highContrast soundEnabled hovered
          clicked).scene.hypercube).all
      (fun c => c.color == "#FFFFFF" && c.outlineColor == "#000000")) = true ∧
    hypercubeLabelCalls
        (HypercubeVisualization true soundEnabled hovered
          clicked).scene.hypercube =
      hypercubeLabelCalls
        (HypercubeVisualization false soundEnabled hovered
          clicked).scene.hypercube := by
  cases highContrast <;> cases soundEnabled <;> cases hovered <;>
    cases clicked <;> exact ⟨rfl, rfl, rfl, rfl⟩

end Hypercube
